import Mathlib

/-!
Shallow embedding of the scrolling core of the rat-scroll repository
(src/scroll.rs, src/scrolled.rs, src/view.rs), together with theorems
settling the specification claims about it.

Modelling conventions:
* Rust `usize`/`u16` values are modelled as `Nat`.
* `saturating_sub` on unsigned integers is exactly `Nat` truncated
  subtraction.
* `saturating_add`/`saturating_mul` clip at `USIZE_MAX` and are modelled
  exactly (`satAdd`, `satMul`).
* Plain `+`/`*` on `usize` can only panic (debug) or wrap (release) at
  results of at least 2^64; such overflow is outside the modelled domain
  and the operations are modelled as exact `Nat` addition/multiplication.
* Plain `-` and `/` on `usize` panic inside the representable range
  (underflow, division by zero); they are modelled by `checkedSub` and
  `checkedDiv` returning `none` exactly where the Rust code panics.
* `ratatui`'s `Rect` (an external collaborator) is modelled as a record
  of `Nat` coordinates with the usual half-open cell semantics.
-/

/-- Largest value of `usize` (2^64 - 1) on the 64-bit targets the crate
is built for. -/
def USIZE_MAX : Nat := 18446744073709551615

/-- Rust `usize::saturating_add`. -/
def satAdd (a b : Nat) : Nat := min (a + b) USIZE_MAX

/-- Rust `usize::saturating_mul`. -/
def satMul (a b : Nat) : Nat := min (a * b) USIZE_MAX

/-- Rust unsigned subtraction `a - b`, which panics on underflow; `none`
models the panic. -/
def checkedSub (a b : Nat) : Option Nat := if b ≤ a then some (a - b) else none

/-- Rust unsigned division `a / b`, which panics when `b = 0`; `none`
models the panic. -/
def checkedDiv (a b : Nat) : Option Nat := if b = 0 then none else some (a / b)

/-- ratatui `Rect`: `x`, `y`, `width`, `height` are `u16` in the source,
modelled as `Nat`. -/
structure Rect where
  x : Nat
  y : Nat
  width : Nat
  height : Nat
deriving DecidableEq, Repr

/-- ratatui `Rect::contains`, for the cell at column `c`, row `r`
(half-open extents). -/
def Rect.contains (rect : Rect) (c r : Nat) : Prop :=
  rect.x ≤ c ∧ c < rect.x + rect.width ∧ rect.y ≤ r ∧ r < rect.y + rect.height

instance (rect : Rect) (c r : Nat) : Decidable (rect.contains c r) := by
  unfold Rect.contains; infer_instance

/-- Two rectangles are disjoint when no cell belongs to both. -/
def Rect.Disjoint (a b : Rect) : Prop :=
  ∀ c r : Nat, a.contains c r → b.contains c r → False

/-- ratatui `ScrollbarOrientation` (external enum used throughout the
crate). -/
inductive ScrollbarOrientation where
  | verticalRight
  | verticalLeft
  | horizontalBottom
  | horizontalTop
deriving DecidableEq, Repr

/-- scroll.rs `ScrollbarType`. -/
inductive ScrollbarType where
  | show
  | minimal
  | noRender
deriving DecidableEq, Repr

/-- scroll.rs `Scroll`: the configuration fields that take part in
layout and state updates.  The purely visual symbol/style fields
(opaque external `Style`/`&str` values, unused by any claim) are
omitted. -/
structure Scroll where
  policy : ScrollbarType
  orientation : ScrollbarOrientation
  start_margin : Nat
  end_margin : Nat
  overscroll_by : Option Nat
  scroll_by : Option Nat
deriving DecidableEq, Repr

/-- scroll.rs `Scroll::is_vertical`. -/
def Scroll.is_vertical (s : Scroll) : Bool :=
  match s.orientation with
  | .verticalRight => true
  | .verticalLeft => true
  | .horizontalBottom => false
  | .horizontalTop => false

/-- scroll.rs `Scroll::is_horizontal`. -/
def Scroll.is_horizontal (s : Scroll) : Bool :=
  match s.orientation with
  | .verticalRight => false
  | .verticalLeft => false
  | .horizontalBottom => true
  | .horizontalTop => true

/-- scroll.rs `ScrollState`.  The `mouse : MouseFlags` field (external
helper state) and the `non_exhaustive` marker are omitted; no modelled
operation touches them. -/
structure ScrollState where
  area : Rect
  orientation : ScrollbarOrientation
  offset : Nat
  max_offset : Nat
  page_len : Nat
  scroll_by : Option Nat
  overscroll_by : Option Nat
deriving DecidableEq, Repr

/-- scroll.rs `ScrollState::overscroll_by()` accessor
(`self.overscroll_by.unwrap_or_default()`).  Named `overscrollBy`
because the field already carries the source name. -/
def ScrollState.overscrollBy (s : ScrollState) : Nat :=
  s.overscroll_by.getD 0

/-- scroll.rs `ScrollState::scroll_by()` accessor (the suggested scroll
step).  Named `scrollBy` because the field already carries the source
name. -/
def ScrollState.scrollBy (s : ScrollState) : Nat :=
  match s.scroll_by with
  | some scroll => max scroll 1
  | none => max (s.page_len / 10) 1

/-- scroll.rs `ScrollState::limit_offset`. -/
def ScrollState.limit_offset (s : ScrollState) (offset : Nat) : Nat :=
  min offset (satAdd s.max_offset s.overscrollBy)

/-- scroll.rs `ScrollState::set_offset`. -/
def ScrollState.set_offset (s : ScrollState) (offset : Nat) : ScrollState × Bool :=
  let old := s.offset
  let s' := { s with offset := s.limit_offset offset }
  (s', old != s'.offset)

/-- scroll.rs `ScrollState::scroll_to_pos`.  In the first branch
`pos - page_len` cannot underflow because the branch condition gives
`pos ≥ offset + page_len ≥ page_len`, so `Nat` subtraction is exact
there. -/
def ScrollState.scroll_to_pos (s : ScrollState) (pos : Nat) : ScrollState × Bool :=
  let old := s.offset
  let s' :=
    if pos ≥ s.offset + s.page_len then
      { s with offset := pos - s.page_len + 1 }
    else if pos < s.offset then
      { s with offset := pos }
    else s
  (s', old != s'.offset)

/-- scroll.rs `ScrollState::scroll_up` (`saturating_sub`, then
`limit_offset`). -/
def ScrollState.scroll_up (s : ScrollState) (n : Nat) : ScrollState × Bool :=
  let old := s.offset
  let s' := { s with offset := s.limit_offset (s.offset - n) }
  (s', old != s'.offset)

/-- scroll.rs `ScrollState::scroll_down` (`saturating_add`, then
`limit_offset`). -/
def ScrollState.scroll_down (s : ScrollState) (n : Nat) : ScrollState × Bool :=
  let old := s.offset
  let s' := { s with offset := s.limit_offset (satAdd s.offset n) }
  (s', old != s'.offset)

/-- scroll.rs `ScrollState::scroll_left` (delegates to `scroll_up`). -/
def ScrollState.scroll_left (s : ScrollState) (n : Nat) : ScrollState × Bool :=
  s.scroll_up n

/-- scroll.rs `ScrollState::scroll_right` (delegates to `scroll_down`). -/
def ScrollState.scroll_right (s : ScrollState) (n : Nat) : ScrollState × Bool :=
  s.scroll_down n

/-- scroll.rs `ScrollState::items_added`.  The two `+=` additions can
only overflow at sums of at least 2^64, outside the modelled domain, so
they are exact `Nat` additions here. -/
def ScrollState.items_added (s : ScrollState) (pos n : Nat) : ScrollState :=
  let offset := if s.offset ≥ pos then s.offset + n else s.offset
  { s with offset := offset, max_offset := s.max_offset + n }

/-- scroll.rs `ScrollState::items_removed`.  `self.offset -= n` is a
plain unsigned subtraction that panics on underflow (modelled by
`checkedSub`), while `max_offset` uses `saturating_sub`. -/
def ScrollState.items_removed (s : ScrollState) (pos n : Nat) : Option ScrollState :=
  match (if s.offset ≥ pos then checkedSub s.offset n else some s.offset) with
  | none => none
  | some offset => some { s with offset := offset, max_offset := s.max_offset - n }

/-- scroll.rs `ScrollState::map_position_index`.  `pos`, `base` and
`length` are `u16` in the source; the two corrections use
`saturating_sub`, the product uses `saturating_mul`, and the final `/`
is an unchecked usize division that panics when the span
`length - 2` is zero (modelled by `checkedDiv`). -/
def ScrollState.map_position_index (s : ScrollState) (pos base length : Nat) : Option Nat :=
  let pos := pos - base - 1
  let span := length - 2
  checkedDiv (satMul s.max_offset pos) span

/-- scroll.rs `layout_scroll`.  The `block` parameter only enters via
`is_some`, so it is modelled as `Option Unit`.  The `unimplemented!`
panics for mismatched orientations are modelled by `none`. -/
def layout_scroll (area : Rect) (block : Option Unit)
    (h_scroll v_scroll : Option Scroll) : Option (Rect × Rect × Rect) :=
  let margin_left : Nat := if block.isSome then 1 else 0
  let margin_right : Nat := if block.isSome then 1 else 0
  let margin_top : Nat := if block.isSome then 1 else 0
  let margin_bottom : Nat := if block.isSome then 1 else 0
  let margin_left := match v_scroll with
    | some v => match v.orientation with
      | .verticalLeft => 1
      | _ => margin_left
    | none => margin_left
  let margin_right := match v_scroll with
    | some v => match v.orientation with
      | .verticalRight => 1
      | _ => margin_right
    | none => margin_right
  let margin_top := match h_scroll with
    | some h => match h.orientation with
      | .horizontalTop => 1
      | _ => margin_top
    | none => margin_top
  let margin_bottom := match h_scroll with
    | some h => match h.orientation with
      | .horizontalBottom => 1
      | _ => margin_bottom
    | none => margin_bottom
  let h_area : Option Rect := match h_scroll with
    | some h => match h.orientation with
      | .verticalRight => none
      | .verticalLeft => none
      | .horizontalBottom => some
          ⟨area.x + margin_left + h.start_margin,
           area.y + (area.height - 1),
           area.width - (margin_left + margin_right + h.start_margin + h.end_margin),
           if area.height > 0 then 1 else 0⟩
      | .horizontalTop => some
          ⟨area.x + margin_left + h.start_margin,
           area.y,
           area.width - (margin_left + margin_right + h.start_margin + h.end_margin),
           if area.height > 0 then 1 else 0⟩
    | none => some ⟨area.x, area.y, 0, 0⟩
  let v_area : Option Rect := match v_scroll with
    | some v => match v.orientation with
      | .verticalRight => some
          ⟨area.x + (area.width - 1),
           area.y + margin_top + v.start_margin,
           if area.width > 0 then 1 else 0,
           area.height - (margin_top + margin_bottom + v.start_margin + v.end_margin)⟩
      | .verticalLeft => some
          ⟨area.x,
           area.y + margin_top + v.start_margin,
           if area.width > 0 then 1 else 0,
           area.height - (margin_top + margin_bottom + v.start_margin + v.end_margin)⟩
      | .horizontalBottom => none
      | .horizontalTop => none
    | none => some ⟨area.x, area.y, 0, 0⟩
  match h_area, v_area with
  | some ha, some va =>
      some (ha, va,
        ⟨area.x + margin_left,
         area.y + margin_top,
         area.width - (margin_left + margin_right),
         area.height - (margin_top + margin_bottom)⟩)
  | _, _ => none

/-- view.rs `ViewState`.  The `non_exhaustive` marker is omitted. -/
structure ViewState where
  area : Rect
  view_area : Rect
  h_offset : Nat
  v_offset : Nat
deriving DecidableEq, Repr

/-- view.rs `ScrollingState for ViewState::set_vertical_offset`.
`view_area.height` is a `u16` widened to `usize` in the source;
`saturating_sub(1)` is `Nat` subtraction. -/
def ViewState.set_vertical_offset (s : ViewState) (offset : Nat) : ViewState × Bool :=
  let old_offset := s.v_offset
  let s' :=
    if s.v_offset < s.view_area.height then
      { s with v_offset := offset }
    else if s.v_offset ≥ s.view_area.height then
      { s with v_offset := s.view_area.height - 1 }
    else s
  (s', old_offset != s'.v_offset)

/-- view.rs `ScrollingState for ViewState::set_horizontal_offset`. -/
def ViewState.set_horizontal_offset (s : ViewState) (offset : Nat) : ViewState × Bool :=
  let old_offset := s.h_offset
  let s' :=
    if s.h_offset < s.view_area.width then
      { s with h_offset := offset }
    else if s.h_offset ≥ s.view_area.width then
      { s with h_offset := s.view_area.width - 1 }
    else s
  (s', old_offset != s'.h_offset)

/-- crossterm events, restricted to the `ct_event!` patterns matched in
scrolled.rs (an external tagged-event type; all other events are
`other`). -/
inductive Event where
  | mouseDownLeft (column row : Nat)
  | mouseDragLeft (column row : Nat)
  | mouseMoved
  | scrollDown (column row : Nat)
  | scrollUp (column row : Nat)
  | scrollAltDown (column row : Nat)
  | scrollAltUp (column row : Nat)
  | other
deriving DecidableEq, Repr

/-- Modelled from the spec: `ScrollOutcome`, the tri-state consumed
result (not used / consumed-by-chrome / consumed-by-content-with-
payload); its declaring module (event.rs) is not among the source
files.  Only the variants scrolled.rs constructs are included. -/
inductive ScrollOutcome (R : Type) where
  | notUsed
  | changed
  | inner (r : R)
deriving DecidableEq, Repr

/-- Modelled from the spec: consumption of a `ScrollOutcome`, which
"composes by short-circuiting at the first consuming stage" --
`notUsed` is not consumed, a chrome change is, and an `inner` result is
consumed exactly when the content's own result is (`rCons`). -/
def ScrollOutcome.isConsumed {R : Type} (rCons : R → Bool) : ScrollOutcome R → Bool
  | .notUsed => false
  | .changed => true
  | .inner r => rCons r

/-- Modelled from the spec: the `ScrollingState` capability interface
of the content state (its trait declaration is not among the source
files).  Each field is one trait method scrolled.rs calls on the
content state. -/
structure ScrollingStateOps (W : Type) where
  verticalMaxOffset : W → Nat
  verticalOffset : W → Nat
  horizontalMaxOffset : W → Nat
  horizontalOffset : W → Nat
  setVerticalOffset : W → Nat → W × Bool
  setHorizontalOffset : W → Nat → W × Bool
  verticalScroll : W → Nat
  horizontalScroll : W → Nat
  scrollUp : W → Nat → W × Bool
  scrollLeft : W → Nat → W × Bool

/-- scrolled.rs `ScrolledState`.  The `non_exhaustive` marker is
omitted. -/
structure ScrolledState (W : Type) where
  widget : W
  area : Rect
  view_area : Rect
  h_scrollbar_area : Option Rect
  v_scrollbar_area : Option Rect
  v_overscroll : Nat
  h_overscroll : Nat
  v_drag : Bool
  h_drag : Bool
deriving DecidableEq, Repr

/-- scrolled.rs `ScrolledState::set_vertical_offset` (limits to
`vertical_max_offset() + v_overscroll`; the plain `+` can only overflow
outside the modelled domain). -/
def ScrolledState.set_vertical_offset {W : Type} (ops : ScrollingStateOps W)
    (s : ScrolledState W) (offset : Nat) : ScrolledState W × Bool :=
  let voffset := min offset (ops.verticalMaxOffset s.widget + s.v_overscroll)
  let (w, ch) := ops.setVerticalOffset s.widget voffset
  ({ s with widget := w }, ch)

/-- scrolled.rs `ScrolledState::set_horizontal_offset`. -/
def ScrolledState.set_horizontal_offset {W : Type} (ops : ScrollingStateOps W)
    (s : ScrolledState W) (offset : Nat) : ScrolledState W × Bool :=
  let hoffset := min offset (ops.horizontalMaxOffset s.widget + s.h_overscroll)
  let (w, ch) := ops.setHorizontalOffset s.widget hoffset
  ({ s with widget := w }, ch)

/-- scrolled.rs `ScrolledState::scroll_down`. -/
def ScrolledState.scroll_down {W : Type} (ops : ScrollingStateOps W)
    (s : ScrolledState W) (n : Nat) : ScrolledState W × Bool :=
  let v_offset := min (ops.verticalOffset s.widget + n)
    (ops.verticalMaxOffset s.widget + s.v_overscroll)
  ScrolledState.set_vertical_offset ops s v_offset

/-- scrolled.rs `ScrolledState::scroll_right`. -/
def ScrolledState.scroll_right {W : Type} (ops : ScrollingStateOps W)
    (s : ScrolledState W) (n : Nat) : ScrolledState W × Bool :=
  let hoffset := min (ops.horizontalOffset s.widget + n)
    (ops.horizontalMaxOffset s.widget + s.h_overscroll)
  ScrolledState.set_horizontal_offset ops s hoffset

/-- scrolled.rs `mouse_handling`, horizontal leg of the
`mouse down Left` arm (reached when no vertical scrollbar area contains
the click).  The unchecked division by the corrected track width panics
when the width is at most 2 (modelled by `checkedDiv`). -/
def mouse_down_h {W : Type} (R : Type) (ops : ScrollingStateOps W)
    (s : ScrolledState W) (column row : Nat) :
    Option (ScrolledState W × ScrollOutcome R) :=
  match s.h_scrollbar_area with
  | some hscroll_area =>
    if hscroll_area.contains column row then
      let col := column - hscroll_area.x - 1
      let width := hscroll_area.width - 2
      match checkedDiv (ops.horizontalMaxOffset s.widget * col) width with
      | none => none
      | some pos =>
        let s := { s with h_drag := true }
        let (w, ch) := ops.setHorizontalOffset s.widget pos
        some ({ s with widget := w }, if ch then .changed else .notUsed)
    else some (s, .notUsed)
  | none => some (s, .notUsed)

/-- scrolled.rs `mouse_handling`, horizontal leg of the
`mouse drag Left` arm (reached when the vertical leg does not return). -/
def mouse_drag_h {W : Type} (R : Type) (ops : ScrollingStateOps W)
    (s : ScrolledState W) (column : Nat) :
    Option (ScrolledState W × ScrollOutcome R) :=
  if s.h_drag then
    match s.h_scrollbar_area with
    | some hscroll_area =>
      let col := column - hscroll_area.x - 1
      let width := hscroll_area.width - 2
      match checkedDiv (col * ops.horizontalMaxOffset s.widget) width with
      | none => none
      | some pos =>
        let (s', ch) := ScrolledState.set_horizontal_offset ops s pos
        some (s', if ch then .changed else .notUsed)
    | none => some (s, .notUsed)
  else some (s, .notUsed)

/-- scrolled.rs `mouse_handling`: the chrome-only event handling of the
composite wrapper (scrollbar clicks and drags, drag reset on mouse
move, wheel scrolling inside the outer area).  Unchecked divisions by
corrected track extents are modelled by `checkedDiv`. -/
def mouse_handling {W : Type} (R : Type) (ops : ScrollingStateOps W)
    (s : ScrolledState W) (e : Event) :
    Option (ScrolledState W × ScrollOutcome R) :=
  match e with
  | .mouseDownLeft column row =>
    match s.v_scrollbar_area with
    | some vscroll_area =>
      if vscroll_area.contains column row then
        let row := row - vscroll_area.y - 1
        let height := vscroll_area.height - 2
        match checkedDiv (ops.verticalMaxOffset s.widget * row) height with
        | none => none
        | some pos =>
          let s := { s with v_drag := true }
          let (w, ch) := ops.setVerticalOffset s.widget pos
          some ({ s with widget := w }, if ch then .changed else .notUsed)
      else mouse_down_h R ops s column row
    | none => mouse_down_h R ops s column row
  | .mouseDragLeft column row =>
    if s.v_drag then
      match s.v_scrollbar_area with
      | some vscroll_area =>
        let row := row - vscroll_area.y - 1
        let height := vscroll_area.height - 2
        match checkedDiv (ops.verticalMaxOffset s.widget * row) height with
        | none => none
        | some pos =>
          let (s', ch) := ScrolledState.set_vertical_offset ops s pos
          some (s', if ch then .changed else .notUsed)
      | none => mouse_drag_h R ops s column
    else mouse_drag_h R ops s column
  | .mouseMoved =>
    some ({ s with v_drag := false, h_drag := false }, .notUsed)
  | .scrollDown column row =>
    if s.area.contains column row then
      let (s', ch) := ScrolledState.scroll_down ops s (ops.verticalScroll s.widget)
      some (s', if ch then .changed else .notUsed)
    else some (s, .notUsed)
  | .scrollUp column row =>
    if s.area.contains column row then
      let (w, ch) := ops.scrollUp s.widget (ops.verticalScroll s.widget)
      some ({ s with widget := w }, if ch then .changed else .notUsed)
    else some (s, .notUsed)
  | .scrollAltDown column row =>
    if s.area.contains column row then
      let (s', ch) := ScrolledState.scroll_right ops s (ops.horizontalScroll s.widget)
      some (s', if ch then .changed else .notUsed)
    else some (s, .notUsed)
  | .scrollAltUp column row =>
    if s.area.contains column row then
      let (w, ch) := ops.scrollLeft s.widget (ops.horizontalScroll s.widget)
      some ({ s with widget := w }, if ch then .changed else .notUsed)
    else some (s, .notUsed)
  | .other => some (s, .notUsed)

/-- scrolled.rs `forward_filter`: mouse-down and wheel events are
forwarded to the content widget's handler (`innerH`) only inside
`view_area`; every other event -- pointer drags and moves included --
is forwarded unconditionally. -/
def forward_filter {W R : Type} (innerH : W → Event → W × R)
    (s : ScrolledState W) (e : Event) : ScrolledState W × ScrollOutcome R :=
  match e with
  | .mouseDownLeft column row
  | .scrollDown column row
  | .scrollUp column row
  | .scrollAltDown column row
  | .scrollAltUp column row =>
    if s.view_area.contains column row then
      let (w, r) := innerH s.widget e
      ({ s with widget := w }, .inner r)
    else (s, .notUsed)
  | _ =>
    let (w, r) := innerH s.widget e
    ({ s with widget := w }, .inner r)

/-- scrolled.rs `HandleEvent<.., MouseOnly, ScrollOutcome<R>> for
ScrolledState`: `forward_filter(..).or_else(|| mouse_handling(..))`,
where rat-event's `or_else` keeps the first result when it is consumed
and otherwise evaluates the second (state mutations made by the first
stage persist either way). -/
def ScrolledState.handle {W R : Type} (ops : ScrollingStateOps W)
    (rCons : R → Bool) (innerH : W → Event → W × R)
    (s : ScrolledState W) (e : Event) :
    Option (ScrolledState W × ScrollOutcome R) :=
  let (s', o) := forward_filter innerH s e
  if o.isConsumed rCons then some (s', o) else mouse_handling R ops s' e

/-! Concrete states used by witnesses and counterexamples. -/

/-- A scroll state with a non-trivial `max_offset`, used to evaluate
`map_position_index` on a degenerate track. -/
def exMapState : ScrollState :=
  { area := ⟨0, 0, 0, 0⟩, orientation := .verticalRight, offset := 0,
    max_offset := 10, page_len := 5, scroll_by := none, overscroll_by := none }

/-- A scroll state with `offset = 5`, used to evaluate `items_removed`
with `n` larger than the offset. -/
def exRemState : ScrollState :=
  { area := ⟨0, 0, 0, 0⟩, orientation := .verticalRight, offset := 5,
    max_offset := 50, page_len := 5, scroll_by := none, overscroll_by := none }

/-- A scroll state with the explicit step set to 0 and `page_len = 20`. -/
def exStepState : ScrollState :=
  { area := ⟨0, 0, 0, 0⟩, orientation := .verticalRight, offset := 0,
    max_offset := 100, page_len := 20, scroll_by := some 0, overscroll_by := none }

/-- A scroll state with overscroll allowance 3, used for the
`limit_offset` witness. -/
def exLimState : ScrollState :=
  { area := ⟨0, 0, 0, 0⟩, orientation := .verticalRight, offset := 0,
    max_offset := 10, page_len := 5, scroll_by := none, overscroll_by := some 3 }

/-- A scroll state with `page_len = 0`, the degenerate case of
`scroll_to_pos`. -/
def exPageZero : ScrollState :=
  { area := ⟨0, 0, 0, 0⟩, orientation := .verticalRight, offset := 0,
    max_offset := 10, page_len := 0, scroll_by := none, overscroll_by := none }

/-- A scroll state with `page_len = 4`, used for the `scroll_to_pos`
idempotence witness. -/
def exPageFour : ScrollState :=
  { area := ⟨0, 0, 0, 0⟩, orientation := .verticalRight, offset := 10,
    max_offset := 100, page_len := 4, scroll_by := none, overscroll_by := none }

/-- A view state whose drawing area is 5 rows of a 10-row view, with
both offsets at 0. -/
def exViewState : ViewState :=
  { area := ⟨0, 0, 40, 5⟩, view_area := ⟨0, 0, 40, 10⟩, h_offset := 0, v_offset := 0 }

/-- C1: `map_position_index` is claimed to be total and to map a zero
usable span (track length at most 2) to offset 0.  The code instead
divides by the span unchecked: with `length = 2` the span is 0 and the
division panics, modelled by `none`. -/
theorem map_position_index_zero_span_fails :
    ScrollState.map_position_index exMapState 1 0 2 = none := by
  rfl

/-- C3: `items_removed` is claimed to decrease `offset` by saturating
subtraction.  The code uses a plain `-=`: with `offset = 5`, `at = 3`,
`n = 10` the subtraction underflows and panics (modelled by `none`)
instead of storing 0. -/
theorem items_removed_underflow_fails :
    ScrollState.items_removed exRemState 3 10 = none := by
  rfl

/-- C5 counterexample: with `scroll_by = Some 0` and `page_len = 20`
the claim demands the fallback `max(page_len / 10, 1) = 2`, but the
code returns `max(0, 1) = 1`. -/
theorem scroll_by_zero_counterexample :
    ScrollState.scrollBy exStepState = 1 ∧
    max (exStepState.page_len / 10) 1 = 2 ∧
    ScrollState.scrollBy exStepState ≠ max (exStepState.page_len / 10) 1 := by
  decide

/-- C5 (amended): the effective step is `max(scroll_by, 1)` when an
explicit step is present -- even when that step is 0 -- and
`max(page_len / 10, 1)` otherwise; in every case it is at least 1. -/
theorem scroll_by_floor_and_default (s : ScrollState) :
    ScrollState.scrollBy s = max (s.scroll_by.getD (s.page_len / 10)) 1 ∧
    1 ≤ ScrollState.scrollBy s := by
  cases h : s.scroll_by <;> simp [ScrollState.scrollBy, h]

/-- C6: `limit_offset o` equals `min o (max_offset + overscroll_by)`
for every representable `o`, is bounded by
`max_offset + overscroll_by`, and is idempotent. -/
theorem limit_offset_min_bound_idem (s : ScrollState) (o : Nat)
    (h : o ≤ USIZE_MAX) :
    ScrollState.limit_offset s o = min o (s.max_offset + ScrollState.overscrollBy s) ∧
    ScrollState.limit_offset s o ≤ s.max_offset + ScrollState.overscrollBy s ∧
    ScrollState.limit_offset s (ScrollState.limit_offset s o)
      = ScrollState.limit_offset s o := by
  unfold ScrollState.limit_offset satAdd
  unfold USIZE_MAX at *
  omega

/-- C6 witness at `max_offset = 10`, `overscroll_by = 3`, `o = 20`. -/
theorem limit_offset_min_bound_idem_witness :
    (20 ≤ USIZE_MAX) ∧
    (ScrollState.limit_offset exLimState 20
        = min 20 (exLimState.max_offset + ScrollState.overscrollBy exLimState) ∧
      ScrollState.limit_offset exLimState 20
        ≤ exLimState.max_offset + ScrollState.overscrollBy exLimState ∧
      ScrollState.limit_offset exLimState (ScrollState.limit_offset exLimState 20)
        = ScrollState.limit_offset exLimState 20) :=
  ⟨by decide, limit_offset_min_bound_idem exLimState 20 (by decide)⟩

/-- C7: `items_added pos n` followed by `items_removed pos n` restores
the whole original state (in particular `offset` and `max_offset`);
the insertion shifts `offset` by `n` exactly when `pos ≤ offset` and
leaves it untouched otherwise. -/
theorem items_added_removed_round_trip (s : ScrollState) (pos n : Nat) :
    ScrollState.items_removed (ScrollState.items_added s pos n) pos n = some s ∧
    (ScrollState.items_added s pos n).offset
      = (if pos ≤ s.offset then s.offset + n else s.offset) := by
  obtain ⟨a, ori, off, mo, pl, sb, ob⟩ := s
  by_cases hp : pos ≤ off
  · have h1 : pos ≤ off + n := le_trans hp (Nat.le_add_right _ _)
    simp [ScrollState.items_added, ScrollState.items_removed, checkedSub,
      hp, h1, Nat.le_add_left, Nat.add_sub_cancel]
  · simp [ScrollState.items_added, ScrollState.items_removed, checkedSub,
      hp, Nat.add_sub_cancel]

/-- The six non-offset fields of a `ScrollState` agree. -/
def ScrollState.same_frame (a b : ScrollState) : Prop :=
  a.area = b.area ∧ a.orientation = b.orientation ∧ a.max_offset = b.max_offset ∧
  a.page_len = b.page_len ∧ a.scroll_by = b.scroll_by ∧ a.overscroll_by = b.overscroll_by

theorem with_offset_same_frame (s : ScrollState) (v : Nat) :
    ScrollState.same_frame { s with offset := v } s :=
  ⟨rfl, rfl, rfl, rfl, rfl, rfl⟩

theorem same_frame_refl (s : ScrollState) : ScrollState.same_frame s s :=
  ⟨rfl, rfl, rfl, rfl, rfl, rfl⟩

/-- C10: the offset mutators `set_offset`, `scroll_to_pos`,
`scroll_up`, `scroll_down`, `scroll_left` and `scroll_right` change at
most the `offset` field: `area`, `orientation`, `max_offset`,
`page_len`, `scroll_by` and `overscroll_by` are preserved by each. -/
theorem scroll_mutators_change_only_offset (s : ScrollState) (o n pos : Nat) :
    ScrollState.same_frame (ScrollState.set_offset s o).1 s ∧
    ScrollState.same_frame (ScrollState.scroll_to_pos s pos).1 s ∧
    ScrollState.same_frame (ScrollState.scroll_up s n).1 s ∧
    ScrollState.same_frame (ScrollState.scroll_down s n).1 s ∧
    ScrollState.same_frame (ScrollState.scroll_left s n).1 s ∧
    ScrollState.same_frame (ScrollState.scroll_right s n).1 s := by
  refine ⟨with_offset_same_frame s _, ?_, with_offset_same_frame s _,
    with_offset_same_frame s _, with_offset_same_frame s _,
    with_offset_same_frame s _⟩
  unfold ScrollState.scroll_to_pos
  dsimp only
  split
  · exact with_offset_same_frame s _
  · split
    · exact with_offset_same_frame s _
    · exact same_frame_refl s

/-- C4 counterexample: with the view 10 rows tall, the drawing area 5
rows tall and `v_offset = 0`, `set_vertical_offset 100` stores 100,
far outside the claimed range `[0, view_area.height - area.height] = [0, 5]`. -/
theorem set_vertical_offset_unclamped_counterexample :
    (ViewState.set_vertical_offset exViewState 100).1.v_offset = 100 ∧
    exViewState.view_area.height - exViewState.area.height = 5 ∧
    ¬ (ViewState.set_vertical_offset exViewState 100).1.v_offset
        ≤ exViewState.view_area.height - exViewState.area.height := by
  decide

/-- C4 (amended): `set_vertical_offset o` stores `o` unclamped whenever
the previous `v_offset` is below `view_area.height`, and otherwise
stores `view_area.height - 1` (saturating); symmetrically for
`set_horizontal_offset` with widths.  The stored offset is not clamped
to `[0, view_area.height - area.height]`. -/
theorem view_set_offset_characterisation (s : ViewState) (o : Nat) :
    (ViewState.set_vertical_offset s o).1.v_offset
      = (if s.v_offset < s.view_area.height then o else s.view_area.height - 1) ∧
    (ViewState.set_horizontal_offset s o).1.h_offset
      = (if s.h_offset < s.view_area.width then o else s.view_area.width - 1) := by
  constructor
  · unfold ViewState.set_vertical_offset
    dsimp only
    by_cases h1 : s.v_offset < s.view_area.height
    · simp [h1]
    · have h2 : s.v_offset ≥ s.view_area.height := Nat.le_of_not_lt h1
      simp [h1, h2]
  · unfold ViewState.set_horizontal_offset
    dsimp only
    by_cases h1 : s.h_offset < s.view_area.width
    · simp [h1]
    · have h2 : s.h_offset ≥ s.view_area.width := Nat.le_of_not_lt h1
      simp [h1, h2]

/-- C8 counterexample: with `page_len = 0` and `offset = 0`, the first
`scroll_to_pos 0` stores offset 1; the second call with the same
position changes the offset again (to 0) and returns `true`, so the
operation is not idempotent in the degenerate case the claim includes. -/
theorem scroll_to_pos_page_zero_counterexample :
    (ScrollState.scroll_to_pos (ScrollState.scroll_to_pos exPageZero 0).1 0).2 = true ∧
    (ScrollState.scroll_to_pos (ScrollState.scroll_to_pos exPageZero 0).1 0).1.offset
      ≠ (ScrollState.scroll_to_pos exPageZero 0).1.offset := by
  decide

/-- C8 (amended): for `page_len ≥ 1`, `scroll_to_pos` is idempotent:
a second call with the same position leaves the offset unchanged and
returns `false`. -/
theorem scroll_to_pos_idem (s : ScrollState) (pos : Nat) (h : 1 ≤ s.page_len) :
    (ScrollState.scroll_to_pos (ScrollState.scroll_to_pos s pos).1 pos).1.offset
      = (ScrollState.scroll_to_pos s pos).1.offset ∧
    (ScrollState.scroll_to_pos (ScrollState.scroll_to_pos s pos).1 pos).2 = false := by
  obtain ⟨a, ori, off, mo, pl, sb, ob⟩ := s
  simp only at h
  unfold ScrollState.scroll_to_pos
  dsimp only
  by_cases h1 : pos ≥ off + pl
  · have c1 : ¬ (pos ≥ pos - pl + 1 + pl) := by omega
    have c2 : ¬ (pos < pos - pl + 1) := by omega
    simp [h1, c1, c2]
  · by_cases h2 : pos < off
    · have c1 : ¬ (pos ≥ pos + pl) := by omega
      have c2 : ¬ (pos < pos) := by omega
      simp [h1, h2, c1, c2]
    · simp [h1, h2]

/-- C8 witness at `page_len = 4`, `offset = 10`, `pos = 30`. -/
theorem scroll_to_pos_idem_witness :
    (1 ≤ exPageFour.page_len) ∧
    ((ScrollState.scroll_to_pos (ScrollState.scroll_to_pos exPageFour 30).1 30).1.offset
        = (ScrollState.scroll_to_pos exPageFour 30).1.offset ∧
      (ScrollState.scroll_to_pos (ScrollState.scroll_to_pos exPageFour 30).1 30).2 = false) :=
  ⟨by decide, scroll_to_pos_idem exPageFour 30 (by decide)⟩

/-- C9: with a block and both scrollbars (horizontal orientation for
`h_scroll`, vertical for `v_scroll`), the three rectangles produced by
`layout_scroll` -- horizontal track, vertical track and inner area --
are pairwise disjoint, for every outer rectangle and all margins. -/
theorem layout_scroll_disjoint (area : Rect) (b : Unit) (hs vs : Scroll)
    (hh : hs.is_horizontal = true) (hv : vs.is_vertical = true)
    (ha va inner : Rect)
    (heq : layout_scroll area (some b) (some hs) (some vs) = some (ha, va, inner)) :
    Rect.Disjoint ha va ∧ Rect.Disjoint ha inner ∧ Rect.Disjoint va inner := by
  obtain ⟨pol, ori, sm, em, ob, sb⟩ := hs
  obtain ⟨pol', ori', sm', em', ob', sb'⟩ := vs
  cases ori <;> simp [Scroll.is_horizontal] at hh <;>
    cases ori' <;> simp [Scroll.is_vertical] at hv <;>
  · simp [layout_scroll] at heq
    obtain ⟨rfl, rfl, rfl⟩ := heq
    refine ⟨?_, ?_, ?_⟩ <;>
    · intro c r hA hB
      obtain ⟨a1, a2, a3, a4⟩ := hA
      obtain ⟨b1, b2, b3, b4⟩ := hB
      split_ifs at * <;> dsimp only at a1 a2 a3 a4 b1 b2 b3 b4 <;> omega

/-- C9 witness: a 10 by 8 outer area with a block, a bottom horizontal
scrollbar and a right vertical scrollbar; the three layout rectangles
are pairwise disjoint. -/
theorem layout_scroll_disjoint_witness :
    Rect.Disjoint ⟨1, 7, 8, 1⟩ ⟨9, 1, 1, 6⟩ ∧
    Rect.Disjoint ⟨1, 7, 8, 1⟩ ⟨1, 1, 8, 6⟩ ∧
    Rect.Disjoint ⟨9, 1, 1, 6⟩ ⟨1, 1, 8, 6⟩ :=
  layout_scroll_disjoint ⟨0, 0, 10, 8⟩ ()
    ⟨.minimal, .horizontalBottom, 0, 0, none, none⟩
    ⟨.minimal, .verticalRight, 0, 0, none, none⟩
    (by decide) (by decide) ⟨1, 7, 8, 1⟩ ⟨9, 1, 1, 6⟩ ⟨1, 1, 8, 6⟩ (by decide)

/-- A concrete content state for the composite handler: the content
state is just a number that its handler bumps by 100 on every event it
receives, always consuming. -/
def exInner : Nat → Event → Nat × Bool := fun w _ => (w + 100, true)

/-- Concrete capability operations over the `Nat` content state: the
number is the vertical offset, the vertical maximum offset is 100. -/
def exOps : ScrollingStateOps Nat where
  verticalMaxOffset := fun _ => 100
  verticalOffset := fun w => w
  horizontalMaxOffset := fun _ => 0
  horizontalOffset := fun _ => 0
  setVerticalOffset := fun _ o => (o, true)
  setHorizontalOffset := fun w _ => (w, false)
  verticalScroll := fun _ => 1
  horizontalScroll := fun _ => 1
  scrollUp := fun w n => (w - n, w != w - n)
  scrollLeft := fun w _ => (w, false)

/-- A composite state with an active vertical drag on a 1 by 20
vertical scrollbar track at column 19. -/
def exScrolled : ScrolledState Nat :=
  { widget := 0, area := ⟨0, 0, 20, 20⟩, view_area := ⟨0, 0, 19, 20⟩,
    h_scrollbar_area := none, v_scrollbar_area := some ⟨19, 0, 1, 20⟩,
    v_overscroll := 0, h_overscroll := 0, v_drag := true, h_drag := false }

/-- C2 counterexample: with `v_drag` set, a pointer-drag event is still
forwarded into the content widget's handler first (the content state
moves from 0 to 100 and the outcome is `inner`), even though the
scrollbar drag handling alone would have produced a different result
(offset 50 via the track mapping).  So content forwarding is not
restricted to drag-free states. -/
theorem scrolled_drag_forwarded_to_content_counterexample :
    exScrolled.v_drag = true ∧
    ScrolledState.handle exOps (fun r => r) exInner exScrolled (.mouseDragLeft 19 10)
      = some ({ exScrolled with widget := 100 }, .inner true) ∧
    mouse_handling Bool exOps exScrolled (.mouseDragLeft 19 10)
      = some ({ exScrolled with widget := 50 }, .changed) := by
  refine ⟨rfl, rfl, rfl⟩

/-- C2 (amended): the composite `MouseOnly` handler runs
`forward_filter` before `mouse_handling`, and `forward_filter` forwards
pointer-drag events to the content unconditionally.  Hence even in a
state with an active drag flag, whenever the content's handler consumes
the forwarded drag event the composite returns the content's outcome
and the scrollbar drag handling never runs; drag handling only acts on
events the content leaves unconsumed. -/
theorem scrolled_drag_content_first {W R : Type} (ops : ScrollingStateOps W)
    (rCons : R → Bool) (innerH : W → Event → W × R) (s : ScrolledState W)
    (column row : Nat)
    (_hdrag : s.v_drag = true ∨ s.h_drag = true)
    (hcons : rCons (innerH s.widget (.mouseDragLeft column row)).2 = true) :
    ScrolledState.handle ops rCons innerH s (.mouseDragLeft column row)
      = some ({ s with widget := (innerH s.widget (.mouseDragLeft column row)).1 },
          .inner (innerH s.widget (.mouseDragLeft column row)).2) := by
  unfold ScrolledState.handle forward_filter
  rcases hp : innerH s.widget (.mouseDragLeft column row) with ⟨w, r⟩
  rw [hp] at hcons
  simp [ScrollOutcome.isConsumed, hcons]

/-- C2 witness at a drag event at column 5, row 3 on the concrete
state: the drag flag is set, the content consumes, and the composite
returns the forwarded content result. -/
theorem scrolled_drag_content_first_witness :
    (exScrolled.v_drag = true ∨ exScrolled.h_drag = true) ∧
    ((fun r => r) (exInner exScrolled.widget (.mouseDragLeft 5 3)).2 = true) ∧
    ScrolledState.handle exOps (fun r => r) exInner exScrolled (.mouseDragLeft 5 3)
      = some ({ exScrolled with widget := (exInner exScrolled.widget (.mouseDragLeft 5 3)).1 },
          .inner (exInner exScrolled.widget (.mouseDragLeft 5 3)).2) :=
  ⟨Or.inl rfl, rfl,
    scrolled_drag_content_first exOps (fun r => r) exInner exScrolled 5 3 (Or.inl rfl) rfl⟩
